import Mathlib

/-!
# Verification of the client-side state layer of `src/fontend/src/App.jsx`

This development is a shallow embedding of the React component `App` of the
repository: its state hooks become fields of an explicit `AppState` record,
and each event handler (`fetchBanks`, the channel callbacks `onopen` /
`onmessage` / `onclose` set up by `connectWebSocket`, `addLog`,
`fetchResults`, `handleStart`)
becomes a pure Lean function on that record.  Asynchronous effects are made
explicit:

* the outcome of a `fetch` is an oracle argument to the handler that awaits
  it;
* `setTimeout` scheduling is recorded in the state (count of scheduled
  reconnects, list of retry delays) and the firing of a timer is a separate
  event;
* issuing an HTTP request appends the request value to a log of issued
  requests (`startRequests`), and invoking `fetchResults` increments a
  counter (`fetchResultsCalls`), so that "the command was issued exactly
  once" is a statement about the state;
* `new Date().toLocaleTimeString()` is modelled by a `now` field of the
  state, threaded unchanged through a handler invocation.

`reconnectTimeoutRef` holds at most one timeout handle in JavaScript; we
model the number of outstanding scheduled reconnect timers as a natural
number `pendingReconnect` (the null test `!reconnectTimeoutRef.current`
becomes the test `pendingReconnect = 0`), so that the single-flight
invariant `pendingReconnect ≤ 1` is a fact to be proved, not a typing
triviality.
-/

/-- A log entry as built by `addLog`:
`{ level, message, timestamp: new Date().toLocaleTimeString() }`. -/
structure LogEntry where
  level : String
  message : String
  timestamp : String
deriving Repr, DecidableEq

/-- A selectable source, `{id, name}`, as served by `GET /api/banks`. -/
structure Bank where
  id : String
  name : String
deriving Repr, DecidableEq

/-- A result row as served by `GET /api/results`. -/
structure ResultRow where
  tender_name : String
  description : String
  last_date : String
  forms_count : Nat
  download_url : String
deriving Repr, DecidableEq

/-- An HTTP request as issued by `fetch(url, opts)`. -/
structure HttpRequest where
  url : String
  method : String
  body : Option String
deriving Repr, DecidableEq

/-- The component state of `App` (the `useState` hooks and the two refs),
together with the effect instrumentation described in the file header. -/
structure AppState where
  banks : List Bank
  selectedBank : String
  isRunning : Bool
  logs : List LogEntry
  results : List ResultRow
  showResults : Bool
  wsConnected : Bool
  /-- number of outstanding scheduled reconnect timers
  (`reconnectTimeoutRef.current` is non-null iff this is non-zero). -/
  pendingReconnect : Nat
  /-- value `new Date().toLocaleTimeString()` would give at this instant. -/
  now : String
  /-- number of WebSocket channel objects constructed so far. -/
  wsChannelCount : Nat
  /-- total number of reconnect attempts scheduled so far. -/
  scheduledReconnects : Nat
  /-- number of invocations of `fetchResults` so far. -/
  fetchResultsCalls : Nat
  /-- HTTP requests issued by `handleStart`, in order. -/
  startRequests : List HttpRequest
  /-- number of invocations (= HTTP attempts) of `fetchBanks` so far. -/
  fetchAttempts : Nat
  /-- delays (ms) of the retry timers scheduled by `fetchBanks`, in order. -/
  retryDelays : List Nat
deriving Repr, DecidableEq

/-- The initial state of the component: all hooks at their `useState`
initial values, no timers, no effects recorded. -/
def initState : AppState :=
  { banks := []
    selectedBank := ""
    isRunning := false
    logs := []
    results := []
    showResults := false
    wsConnected := false
    pendingReconnect := 0
    now := "12:00:00"
    wsChannelCount := 0
    scheduledReconnects := 0
    fetchResultsCalls := 0
    startRequests := []
    fetchAttempts := 0
    retryDelays := [] }

/-- Embedding of `addLog(level, message)`:
`setLogs(prev => [...prev, { level, message, timestamp: ... }])`. -/
def addLog (s : AppState) (level message : String) : AppState :=
  { s with logs := s.logs ++ [{ level := level, message := message, timestamp := s.now }] }

/-- Outcome of one `fetch("/api/banks")` + `response.json()` round trip:
either a parsed body whose `banks` field is the given list (a missing
`banks` field behaves as the empty list, since `data.banks && ...` is then
falsy), or a network/parse failure (the `catch` branch). -/
inductive FetchBanksResult where
  | ok (banks : List Bank)
  | fail
deriving Repr, DecidableEq

/-- Embedding of `fetchBanks(retryCount)` (lines 18–39 of `App.jsx`): the oracle gives
the outcome of the attempt made at each `retryCount`.  Each invocation is
one HTTP attempt (counted in `fetchAttempts`); each `setTimeout(..., 2000)`
retry is recorded in `retryDelays`. -/
def fetchBanks (oracle : Nat → FetchBanksResult) (s : AppState) (retryCount : Nat) :
    AppState :=
  let s := { s with fetchAttempts := s.fetchAttempts + 1 }
  match oracle retryCount with
  | .ok bs =>
    if bs.length > 0 then
      addLog { s with banks := bs } "success"
        ("Loaded " ++ toString bs.length ++ " bank(s)")
    else if retryCount < 3 then
      fetchBanks oracle { s with retryDelays := s.retryDelays ++ [2000] } (retryCount + 1)
    else
      addLog s "error" "No banks found in config"
  | .fail =>
    if retryCount < 3 then
      fetchBanks oracle
        { (addLog s "warning"
            ("Retrying to fetch banks... (" ++ toString (retryCount + 1) ++ "/3)")) with
          retryDelays := s.retryDelays ++ [2000] }
        (retryCount + 1)
    else
      addLog s "error" "Failed to fetch banks. Check backend."
termination_by 4 - retryCount
decreasing_by all_goals omega

/-- A successfully parsed inbound frame (`JSON.parse(event.data)`), sorted
by the `type` discriminant tested in `ws.onmessage`.  Fields whose absence
matters to a claim are `Option`s (`undefined` ↦ `none`); `current`/`total`
are kept as the strings they interpolate to.  `other` covers every frame
whose `type` is none of the four recognized strings. -/
inductive WsMessage where
  | log (level message : String)
  | progress (stage current total message : String)
  | pdfStatus (pdf_name : String) (status : Option String) (reason : String)
  | completion
  | other (ty : Option String)
deriving Repr, DecidableEq

/-- Embedding of `ws.onmessage` (lines 62–76): `none` is a frame on which `JSON.parse`
threw (the empty `catch {}` swallows it).  The call to `fetchResults()`
in the `completion` branch is recorded as an increment of `fetchResultsCalls`
(its own asynchronous effects land after this handler returns). -/
def onMessage (s : AppState) (frame : Option WsMessage) : AppState :=
  match frame with
  | none => s
  | some m =>
    match m with
    | .log level message => addLog s level message
    | .progress stage current total message =>
        addLog s "progress" (stage ++ ": " ++ current ++ "/" ++ total ++ " - " ++ message)
    | .pdfStatus pdf_name status reason =>
        addLog s (if status = some "filtered" then "success" else "warning")
          (pdf_name ++ ": " ++ reason)
    | .completion =>
        let s := { s with isRunning := false }
        let s := addLog s "success" "Process completed. Loading results."
        { s with fetchResultsCalls := s.fetchResultsCalls + 1 }
    | .other _ => s

/-- Embedding of `ws.onopen` (lines 57–60). -/
def onOpen (s : AppState) : AppState :=
  addLog { s with wsConnected := true } "success" "Connected to server"

/-- Embedding of `ws.onerror` (line 78). -/
def onError (s : AppState) : AppState :=
  { s with wsConnected := false }

/-- Embedding of `ws.onclose` (lines 80–89): if no reconnect timer is pending, log,
schedule one 3-second reconnect and mark the token. -/
def onClose (s : AppState) : AppState :=
  let s := { s with wsConnected := false }
  if s.pendingReconnect = 0 then
    let s := addLog s "warning" "Reconnecting to server..."
    { s with pendingReconnect := s.pendingReconnect + 1
             scheduledReconnects := s.scheduledReconnects + 1 }
  else s

/-- Embedding of `connectWebSocket()` (lines 53–95): constructs a new channel object
(handlers fire later as separate events); a construction failure is caught
and only clears `wsConnected`. -/
def connectWebSocket (s : AppState) (constructOk : Bool) : AppState :=
  if constructOk then
    { s with wsChannelCount := s.wsChannelCount + 1 }
  else
    { s with wsConnected := false }

/-- Firing of the reconnect timer scheduled in `ws.onclose`
(lines 84–87): clear the token, then `connectWebSocket()`. -/
def fireReconnect (s : AppState) (constructOk : Bool) : AppState :=
  connectWebSocket { s with pendingReconnect := s.pendingReconnect - 1 } constructOk

/-- Outcome of the start request in `handleStart`: a network error with
the `message` field of the thrown error, or an HTTP response
with its `ok` flag. -/
inductive StartOutcome where
  | netError (msg : String)
  | httpResponse (ok : Bool)
deriving Repr, DecidableEq

/-- The request issued by `handleStart`:
a body-less POST to the fixed endpoint `http://localhost:8000/api/start`. -/
def startRequest : HttpRequest :=
  { url := "http://localhost:8000/api/start", method := "POST", body := none }

/-- Embedding of `handleStart` (lines 113–129).  Note the guards: it returns early when
`selectedBank` is empty or the channel is not connected, and has no guard
on `isRunning`. -/
def handleStart (s : AppState) (outcome : StartOutcome) : AppState :=
  if s.selectedBank = "" then s
  else if s.wsConnected = false then s
  else
    let s := { s with isRunning := true, logs := [], showResults := false, results := [] }
    let s := addLog s "info" ("Starting automation for " ++ s.selectedBank ++ "...")
    let s := { s with startRequests := s.startRequests ++ [startRequest] }
    match outcome with
    | .netError msg =>
        let s := addLog s "error" ("Failed to start: " ++ msg)
        { s with isRunning := false }
    | .httpResponse ok =>
        if ok then
          addLog s "success" "Automation started"
        else
          let s := addLog s "error" "Failed to start: Failed to start automation"
          { s with isRunning := false }

/-- Embedding of `fetchResults()` (lines 101–111), resolved: the oracle is the outcome
of `fetch("/api/results")` (`none` = network/parse failure; `some rows` =
a body whose `results` field is `rows`, a missing field behaving as `[]`
via `data.results || []`). -/
def fetchResults (s : AppState) (outcome : Option (List ResultRow)) : AppState :=
  match outcome with
  | some rows =>
      addLog { s with results := rows, showResults := true } "info"
        ("Found " ++ toString rows.length ++ " processed tenders")
  | none => addLog s "error" "Failed to fetch results"

/-- Channel lifecycle events consumed by the connection layer: a channel
close, and the firing of a scheduled reconnect timer (with the outcome of
the channel construction it performs). -/
inductive ConnEvent where
  | close
  | fire (constructOk : Bool)
deriving Repr, DecidableEq

/-- One step of the connection layer. -/
def connStep (s : AppState) : ConnEvent → AppState
  | .close => onClose s
  | .fire ok => fireReconnect s ok

/-- Run the connection layer over a sequence of events. -/
def runConn (s : AppState) : List ConnEvent → AppState
  | [] => s
  | e :: es => runConn (connStep s e) es

/-- A trace of `n` consecutive channel closes, each followed by the firing of the
reconnect attempt it scheduled. -/
def closeFireTrace : Nat → List ConnEvent
  | 0 => []
  | n + 1 => ConnEvent.close :: ConnEvent.fire true :: closeFireTrace n

/-! ## Helper states and lemmas -/

/-- A state in which a run is already in progress on a connected channel
with a selected source: the first two guards of `handleStart` pass. -/
def runningState : AppState :=
  { initState with selectedBank := "BANK_A", wsConnected := true, isRunning := true }

/-- A state whose selected id does not occur in the (empty) loaded bank
list. -/
def ghostSelectionState : AppState :=
  { initState with selectedBank := "GHOST", wsConnected := true }

/-- A state that reached Connected the way the program does: one channel
constructed, one open event, one `Connected to server` log entry. -/
def connectedState : AppState :=
  onOpen (connectWebSocket initState true)

/-- The handler `onClose` preserves `pendingReconnect ≤ 1`. -/
theorem onClose_pending_le (s : AppState) (h : s.pendingReconnect ≤ 1) :
    (onClose s).pendingReconnect ≤ 1 := by
  by_cases hp : s.pendingReconnect = 0 <;> simp [onClose, addLog, hp]
  omega

/-- The handler `fireReconnect` never increases `pendingReconnect`. -/
theorem fireReconnect_pending (s : AppState) (ok : Bool) :
    (fireReconnect s ok).pendingReconnect = s.pendingReconnect - 1 := by
  cases ok <;> rfl

/-- Running any event sequence preserves `pendingReconnect ≤ 1`. -/
theorem runConn_pending_le (es : List ConnEvent) :
    ∀ s : AppState, s.pendingReconnect ≤ 1 → (runConn s es).pendingReconnect ≤ 1 := by
  induction es with
  | nil => intro s h; exact h
  | cons e es ih =>
    intro s h
    cases e with
    | close => exact ih _ (onClose_pending_le s h)
    | fire ok =>
      apply ih
      rw [show connStep s (ConnEvent.fire ok) = fireReconnect s ok from rfl,
        fireReconnect_pending]
      omega

/-- Each `close, fire` round trip from a token-free state schedules exactly
one reconnect and returns to a token-free state. -/
theorem runConn_closeFireTrace (n : Nat) :
    ∀ s : AppState, s.pendingReconnect = 0 →
      (runConn s (closeFireTrace n)).scheduledReconnects = s.scheduledReconnects + n ∧
      (runConn s (closeFireTrace n)).pendingReconnect = 0 := by
  induction n with
  | zero => intro s h; exact ⟨rfl, h⟩
  | succ n ih =>
    intro s h
    have step :
        connStep (connStep s ConnEvent.close) (ConnEvent.fire true) =
          { connStep (connStep s ConnEvent.close) (ConnEvent.fire true) with
            pendingReconnect := 0,
            scheduledReconnects := s.scheduledReconnects + 1 } := by
      simp [connStep, onClose, fireReconnect, connectWebSocket, addLog, h]
    have h2 :
        (connStep (connStep s ConnEvent.close) (ConnEvent.fire true)).pendingReconnect = 0 ∧
        (connStep (connStep s ConnEvent.close) (ConnEvent.fire true)).scheduledReconnects =
          s.scheduledReconnects + 1 := by
      simp [connStep, onClose, fireReconnect, connectWebSocket, addLog, h]
    obtain ⟨hp, hs⟩ := h2
    have := ih (connStep (connStep s ConnEvent.close) (ConnEvent.fire true)) hp
    simp only [closeFireTrace, runConn]
    omega

/-! ## Claims about the connection layer -/

/-- Claim C3: over any event trace from a token-free state, at most one
scheduled-reconnect token is ever pending; a trace of `n` closes, each
followed by the firing of its reconnect, schedules exactly `n` attempts; a
close arriving while a token is pending changes nothing but the
connectivity flag (no schedule, no `Reconnecting` log entry); and the
firing of the scheduled attempt clears the token. -/
theorem reconnect_single_flight (s : AppState) (h : s.pendingReconnect = 0) :
    (∀ n : Nat,
      (runConn s (closeFireTrace n)).scheduledReconnects = s.scheduledReconnects + n) ∧
    (∀ es : List ConnEvent, (runConn s es).pendingReconnect ≤ 1) ∧
    (∀ t : AppState, t.pendingReconnect ≠ 0 →
      (onClose t).scheduledReconnects = t.scheduledReconnects ∧
      (onClose t).logs = t.logs ∧
      (onClose t).pendingReconnect = t.pendingReconnect ∧
      (onClose t).wsConnected = false) ∧
    (∀ t : AppState, ∀ ok : Bool, (fireReconnect t ok).pendingReconnect =
      t.pendingReconnect - 1) := by
  refine ⟨fun n => (runConn_closeFireTrace n s h).1,
    fun es => runConn_pending_le es s (by omega), fun t ht => ?_, fireReconnect_pending⟩
  simp [onClose, addLog, ht]

/-- Witness for `reconnect_single_flight` at the initial state, with three
consecutive close/fire rounds. -/
theorem reconnect_single_flight_witness :
    initState.pendingReconnect = 0 ∧
    (runConn initState (closeFireTrace 3)).scheduledReconnects =
      initState.scheduledReconnects + 3 :=
  ⟨rfl, (reconnect_single_flight initState rfl).1 3⟩

/-- Claim C2 counterexample: from a state that became Connected the normal
way, calling `connectWebSocket` again constructs a fresh channel object,
and the open event of that fresh channel appends a second, duplicate
`Connected to server` entry — the function has no idempotence guard. -/
theorem connect_not_idempotent_cex :
    connectedState.wsConnected = true ∧
    (connectWebSocket connectedState true).wsChannelCount =
      connectedState.wsChannelCount + 1 ∧
    (onOpen (connectWebSocket connectedState true)).logs =
      [{ level := "success", message := "Connected to server", timestamp := "12:00:00" },
       { level := "success", message := "Connected to server", timestamp := "12:00:00" }] :=
  ⟨rfl, rfl, rfl⟩

/-- Claim C2 (amended): `connectWebSocket` performs no idempotence check: in
every state, Connected or not, an invocation constructs exactly one new
channel object, and every open event appends exactly one
`Connected to server` entry; no invocation is skipped based on the current
connection state. -/
theorem connect_unconditionally_creates_channel (s : AppState) :
    (connectWebSocket s true).wsChannelCount = s.wsChannelCount + 1 ∧
    (onOpen s).logs =
      s.logs ++ [{ level := "success", message := "Connected to server",
                   timestamp := s.now }] ∧
    (onOpen s).wsConnected = true :=
  ⟨rfl, rfl, rfl⟩

/-! ## Claims about `handleStart` -/

/-- Claim C1 counterexample: in a Running state with a selected source and a
connected channel, `handleStart` is not a no-op: it mutates the state,
issues the backend start command, and appends log entries — the function
has no guard on `isRunning`. -/
theorem handleStart_while_running_cex :
    runningState.isRunning = true ∧
    runningState.selectedBank = "BANK_A" ∧
    runningState.wsConnected = true ∧
    handleStart runningState (.httpResponse true) ≠ runningState ∧
    (handleStart runningState (.httpResponse true)).startRequests = [startRequest] ∧
    (handleStart runningState (.httpResponse true)).logs.length = 2 := by
  refine ⟨rfl, rfl, rfl, fun hc => ?_, rfl, rfl⟩
  have := congrArg (fun t => t.logs.length) hc
  simp [runningState, initState, handleStart, addLog, startRequest] at this

/-- Claim C1 (amended): `handleStart` is a no-op — no state change and no
start command — when the selected source id is empty or the connection is
not Connected; it rejects synchronously without appending any log entry.
(The already-Running case is not guarded inside `handleStart`; it is
prevented only by the view disabling the start button while running.) -/
theorem handleStart_noop_on_bad_preconditions (s : AppState) (o : StartOutcome)
    (h : s.selectedBank = "" ∨ s.wsConnected = false) :
    handleStart s o = s := by
  rcases h with h | h <;> simp [handleStart, h]

/-- Witness for `handleStart_noop_on_bad_preconditions` at the initial
state (empty selection). -/
theorem handleStart_noop_witness :
    handleStart initState (.httpResponse true) = initState :=
  handleStart_noop_on_bad_preconditions initState (.httpResponse true) (Or.inl rfl)

/-- Claim C5 counterexample: with an empty loaded bank list and a selected id
`GHOST` that therefore occurs in no loaded `SourceOption`, `handleStart`
still proceeds: it flips to Running and issues the start command — no
membership validation against the stored list happens. -/
theorem handleStart_no_membership_check_cex :
    ghostSelectionState.banks = [] ∧
    (∀ b ∈ ghostSelectionState.banks, b.id ≠ ghostSelectionState.selectedBank) ∧
    (handleStart ghostSelectionState (.httpResponse true)).isRunning = true ∧
    (handleStart ghostSelectionState (.httpResponse true)).startRequests =
      [startRequest] := by
  refine ⟨rfl, ?_, rfl, rfl⟩
  intro b hb
  simp [ghostSelectionState, initState] at hb

/-- Claim C5 (amended): the only validation `handleStart` applies to the
selected id is non-emptiness: whenever the id is non-empty and the channel
is connected it proceeds and issues the start command, whatever the stored
bank list contains (membership in the loaded list is ensured upstream by
the selector offering only loaded ids, not checked here). -/
theorem handleStart_validates_only_nonempty (s : AppState) (o : StartOutcome)
    (h1 : s.selectedBank ≠ "") (h2 : s.wsConnected = true) :
    (handleStart s o).startRequests = s.startRequests ++ [startRequest] := by
  cases o with
  | netError msg => simp [handleStart, addLog, h1, h2]
  | httpResponse ok => cases ok <;> simp [handleStart, addLog, h1, h2]

/-- Witness for `handleStart_validates_only_nonempty`. -/
theorem handleStart_validates_only_nonempty_witness :
    (handleStart ghostSelectionState (.httpResponse false)).startRequests =
      ghostSelectionState.startRequests ++ [startRequest] :=
  handleStart_validates_only_nonempty ghostSelectionState (.httpResponse false)
    (by simp [ghostSelectionState, initState]) rfl

/-! ## Claims about the message router -/

/-- Claim C6: on a `completion` message, whatever the current run state, the
run state leaves Running (`isRunning` becomes `false`), exactly one success
log entry is appended, and `fetchResults` is invoked exactly once. -/
theorem completion_completes_and_loads_results (s : AppState) :
    (onMessage s (some .completion)).isRunning = false ∧
    (onMessage s (some .completion)).logs =
      s.logs ++ [{ level := "success", message := "Process completed. Loading results.",
                   timestamp := s.now }] ∧
    (onMessage s (some .completion)).fetchResultsCalls = s.fetchResultsCalls + 1 :=
  ⟨rfl, rfl, rfl⟩

/-- Claim C8: the inbound handler is total and silent on bad input: a frame
that fails to parse, or a parsed message with an unrecognized (or missing)
type discriminant, leaves the entire state — run state, logs, results,
everything — unchanged, and no exception escapes (the handler is a total
function). -/
theorem bad_frames_leave_state_unchanged (s : AppState) (ty : Option String) :
    onMessage s none = s ∧ onMessage s (some (.other ty)) = s :=
  ⟨rfl, rfl⟩

/-- Claim C9: every `pdf_status` message appends exactly one log entry, with
message `"<pdf_name>: <reason>"`, whose level is `success` exactly when the
status field is present and equals `filtered`, and `warning` otherwise
(any other or missing status). -/
theorem pdf_status_appends_one_entry (s : AppState) (pdf_name reason : String)
    (status : Option String) :
    (onMessage s (some (.pdfStatus pdf_name status reason))).logs =
      s.logs ++ [{ level := if status = some "filtered" then "success" else "warning",
                   message := pdf_name ++ ": " ++ reason, timestamp := s.now }] ∧
    ((onMessage s (some (.pdfStatus pdf_name status reason))).logs.getLast?
        = some { level := "success", message := pdf_name ++ ": " ++ reason,
                 timestamp := s.now }
      ↔ status = some "filtered") := by
  constructor
  · rfl
  · rw [show (onMessage s (some (.pdfStatus pdf_name status reason))).logs =
        s.logs ++ [{ level := if status = some "filtered" then "success" else "warning",
                     message := pdf_name ++ ": " ++ reason, timestamp := s.now }] from rfl]
    rw [List.getLast?_concat]
    by_cases hs : status = some "filtered" <;> simp [hs]

/-- Claim C7: after the preconditions pass, a failed backend start command —
a network error or a non-2xx response — leaves the run state at Idle
(`isRunning = false`) and the log holds exactly one error entry, carrying
the failure reason, after the starting-info entry. -/
theorem failed_start_reverts_to_idle (s : AppState)
    (h1 : s.selectedBank ≠ "") (h2 : s.wsConnected = true) :
    (∀ msg : String,
      (handleStart s (.netError msg)).isRunning = false ∧
      (handleStart s (.netError msg)).logs =
        [{ level := "info", message := "Starting automation for " ++ s.selectedBank ++ "...",
           timestamp := s.now },
         { level := "error", message := "Failed to start: " ++ msg, timestamp := s.now }]) ∧
    ((handleStart s (.httpResponse false)).isRunning = false ∧
      (handleStart s (.httpResponse false)).logs =
        [{ level := "info", message := "Starting automation for " ++ s.selectedBank ++ "...",
           timestamp := s.now },
         { level := "error", message := "Failed to start: Failed to start automation",
           timestamp := s.now }]) := by
  refine ⟨fun msg => ?_, ?_⟩ <;> simp [handleStart, addLog, h1, h2]

/-- Witness for `failed_start_reverts_to_idle` at a concrete connected
state with a selected source. -/
theorem failed_start_reverts_to_idle_witness :
    (handleStart runningState (.httpResponse false)).isRunning = false :=
  ((failed_start_reverts_to_idle runningState (by simp [runningState, initState]) rfl).2).1

/-- Claim C10: the start command is independent of the selected source: two
`handleStart` runs differing only in the (valid, non-empty) selected id
issue identical requests — a body-less POST to the fixed start endpoint —
and produce states identical up to the selected id itself and the id
interpolated into the initial `Starting automation for <id>...` entry. -/
theorem start_request_independent_of_selection (s : AppState) (id1 id2 : String)
    (o : StartOutcome) (h1 : id1 ≠ "") (h2 : id2 ≠ "") (hc : s.wsConnected = true) :
    startRequest = { url := "http://localhost:8000/api/start", method := "POST",
                     body := none } ∧
    (handleStart { s with selectedBank := id1 } o).startRequests =
      (handleStart { s with selectedBank := id2 } o).startRequests ∧
    (handleStart { s with selectedBank := id1 } o) =
      { handleStart { s with selectedBank := id2 } o with
        selectedBank := id1,
        logs := { level := "info",
                  message := "Starting automation for " ++ id1 ++ "...",
                  timestamp := s.now } ::
                (handleStart { s with selectedBank := id2 } o).logs.tail } := by
  refine ⟨rfl, ?_, ?_⟩ <;>
    cases o with
    | netError msg => simp [handleStart, addLog, h1, h2, hc]
    | httpResponse ok => cases ok <;> simp [handleStart, addLog, h1, h2, hc]

/-- Witness for `start_request_independent_of_selection` with two concrete
distinct ids. -/
theorem start_request_independent_witness :
    (handleStart { initState with wsConnected := true, selectedBank := "BANK_A" }
        (.httpResponse true)).startRequests =
      (handleStart { initState with wsConnected := true, selectedBank := "BANK_B" }
        (.httpResponse true)).startRequests :=
  (start_request_independent_of_selection { initState with wsConnected := true }
    "BANK_A" "BANK_B" (.httpResponse true) (by simp) (by simp) rfl).2.1

/-! ## Claims about the bootstrap loader -/


/-- Attempt bound for `fetchBanks`: starting at `retryCount = r ≤ 3`, at
most `4 - r` further HTTP attempts are made, whatever the endpoint
returns (fuel-indexed form; the fuel `k` only drives the induction). -/
theorem fetchBanks_attempts_le (oracle : Nat → FetchBanksResult) :
    ∀ (k r : Nat) (s : AppState), r ≤ 3 → 4 - r ≤ k →
      (fetchBanks oracle s r).fetchAttempts ≤ s.fetchAttempts + (4 - r) := by
  intro k
  induction k with
  | zero => intro r s hr hk; omega
  | succ k ih =>
    intro r s hr hk
    cases ho : oracle r with
    | ok bs =>
      rw [fetchBanks, ho]
      by_cases hb : bs.length > 0
      · simp [hb, addLog]
        omega
      · by_cases hrc : r < 3
        · simp only [gt_iff_lt, if_neg hb, if_pos hrc]
          refine le_trans (ih (r + 1) _ (by omega) (by omega)) ?_
          simp
          omega
        · simp [hb, hrc, addLog]
          omega
    | fail =>
      rw [fetchBanks, ho]
      by_cases hrc : r < 3
      · simp only [if_pos hrc]
        refine le_trans (ih (r + 1) _ (by omega) (by omega)) ?_
        simp [addLog]
        omega
      · simp [hrc, addLog]
        omega

/-- Every retry delay ever recorded by `fetchBanks` is the fixed 2000 ms. -/
theorem fetchBanks_delays_2000 (oracle : Nat → FetchBanksResult) :
    ∀ (k r : Nat) (s : AppState), 4 - r ≤ k → (∀ d ∈ s.retryDelays, d = 2000) →
      ∀ d ∈ (fetchBanks oracle s r).retryDelays, d = 2000 := by
  intro k
  induction k with
  | zero =>
    intro r s hk hs
    have hrc : ¬ r < 3 := by omega
    cases ho : oracle r with
    | ok bs =>
      rw [fetchBanks, ho]
      by_cases hb : bs.length > 0 <;> simp [hb, hrc, addLog] <;> exact hs
    | fail =>
      rw [fetchBanks, ho]
      simp [hrc, addLog]
      exact hs
  | succ k ih =>
    intro r s hk hs
    cases ho : oracle r with
    | ok bs =>
      rw [fetchBanks, ho]
      by_cases hb : bs.length > 0
      · simp [hb, addLog]
        exact hs
      · by_cases hrc : r < 3
        · simp only [gt_iff_lt, if_neg hb, if_pos hrc]
          refine ih (r + 1) _ (by omega) ?_
          intro d hd
          simp at hd
          rcases hd with hd | hd
          · exact hs d hd
          · exact hd
        · simp [hb, hrc, addLog]
          exact hs
    | fail =>
      rw [fetchBanks, ho]
      by_cases hrc : r < 3
      · simp only [if_pos hrc]
        refine ih (r + 1) _ (by omega) ?_
        intro d hd
        simp [addLog] at hd
        rcases hd with hd | hd
        · exact hs d hd
        · exact hd
      · simp [hrc, addLog]
        exact hs

/-- An endpoint that answers the first three attempts with an empty source
list and the fourth with `bs`. -/
def emptyThenOkOracle (bs : List Bank) : Nat → FetchBanksResult :=
  fun k => if k < 3 then .ok [] else .ok bs

/-- An endpoint on which every attempt fails (network/parse error). -/
def allFailOracle : Nat → FetchBanksResult := fun _ => .fail

/-- An endpoint that answers every attempt with an empty source list. -/
def allEmptyOracle : Nat → FetchBanksResult := fun _ => .ok []

set_option maxHeartbeats 1000000 in
/-- Claim C4: `fetchBanks` makes at most 4 total attempts (initial + 3
retries) against any endpoint and every inter-attempt delay it schedules
is the fixed 2000 ms; an endpoint that is empty on the first 3 attempts
and non-empty on the 4th gets its list stored with one success entry
carrying the count (after exactly 4 attempts and three 2-second delays);
4 consecutive failures, or 4 consecutive empty answers, terminate after
the 4 attempts with a visible error entry and the stored list still
empty. -/
theorem fetchBanks_bounded_retry (bs : List Bank) (h : 0 < bs.length) :
    (∀ (oracle : Nat → FetchBanksResult) (s : AppState),
      (fetchBanks oracle s 0).fetchAttempts ≤ s.fetchAttempts + 4) ∧
    (∀ (oracle : Nat → FetchBanksResult),
      ∀ d ∈ (fetchBanks oracle initState 0).retryDelays, d = 2000) ∧
    ((fetchBanks (emptyThenOkOracle bs) initState 0).banks = bs ∧
     (fetchBanks (emptyThenOkOracle bs) initState 0).logs =
       [{ level := "success", message := "Loaded " ++ toString bs.length ++ " bank(s)",
          timestamp := "12:00:00" }] ∧
     (fetchBanks (emptyThenOkOracle bs) initState 0).fetchAttempts = 4 ∧
     (fetchBanks (emptyThenOkOracle bs) initState 0).retryDelays = [2000, 2000, 2000]) ∧
    ((fetchBanks allFailOracle initState 0).logs.getLast? =
       some { level := "error", message := "Failed to fetch banks. Check backend.",
              timestamp := "12:00:00" } ∧
     (fetchBanks allFailOracle initState 0).banks = [] ∧
     (fetchBanks allFailOracle initState 0).fetchAttempts = 4) ∧
    ((fetchBanks allEmptyOracle initState 0).logs =
       [{ level := "error", message := "No banks found in config",
          timestamp := "12:00:00" }] ∧
     (fetchBanks allEmptyOracle initState 0).banks = [] ∧
     (fetchBanks allEmptyOracle initState 0).fetchAttempts = 4) := by
  refine ⟨fun oracle s => ?_, fun oracle => ?_, ?_, ?_, ?_⟩
  · simpa using fetchBanks_attempts_le oracle 4 0 s (by omega) (by omega)
  · exact fetchBanks_delays_2000 oracle 4 0 initState (by omega)
      (by intro d hd; simp [initState] at hd)
  · simp [fetchBanks, emptyThenOkOracle, addLog, initState, h]
  · simp [fetchBanks, allFailOracle, addLog, initState]
  · simp [fetchBanks, allEmptyOracle, addLog, initState]

/-- Witness for `fetchBanks_bounded_retry` with a one-element source
list. -/
theorem fetchBanks_bounded_retry_witness :
    0 < ([{ id := "SBI", name := "State Bank" }] : List Bank).length ∧
    (fetchBanks (emptyThenOkOracle [{ id := "SBI", name := "State Bank" }])
        initState 0).banks = [{ id := "SBI", name := "State Bank" }] :=
  ⟨by decide,
   (fetchBanks_bounded_retry [{ id := "SBI", name := "State Bank" }] (by decide)).2.2.1.1⟩
